import Mathlib

/-!
Shallow embedding of `src/DuckDuckGo.py`: a PyQt5 tabbed-browser shell.
Each tab wraps one engine view; the `Browser` window holds the tab
collection, the URL bar, and the light/dark theme state.  The engine,
rendering and networking are external collaborators: we model only the
state this program itself owns and mutates.
-/

namespace DuckDuckGo

/-- One tab: an engine view with its current URL, plus the tab-strip
title the window gave it (`self.tabs.addTab(browser, "New Tab")`). -/
structure TabSession where
  currentUrl : String
  displayTitle : String
  deriving Repr, DecidableEq

/-- The state owned by the `Browser` window: its tab collection with the
current (active) index, the theme flag `is_dark_mode`, the stylesheet
applied to the window, the text of the mode-switcher action, and the
text of the URL bar. -/
structure BrowserState where
  tabs : List TabSession
  currentIndex : Nat
  is_dark_mode : Bool
  styleSheet : String
  modeGlyph : String
  url_bar : String
  deriving Repr, DecidableEq

/-- The default search-engine address used by `__init__`, the home
button, `add_new_tab` and `new_tab`. -/
def startAddress : String := "https://start.duckduckgo.com"

/-- The stylesheet installed by `set_light_mode`. -/
def light_mode_style : String :=
  "QMainWindow \x7b background-color: #f5f5f5; \x7d\n" ++
  "QTabWidget::pane \x7b background: #ffffff; \x7d\n" ++
  "QTabBar::tab \x7b background: #e0e0e0; color: black; padding: 8px; margin: 1px; \x7d\n" ++
  "QTabBar::tab:selected \x7b background: #ffffff; color: black; \x7d\n" ++
  "QLineEdit \x7b background-color: #f0f0f0; color: black; \x7d\n" ++
  "QToolBar \x7b background-color: #f5f5f5; padding: 5px; \x7d"

/-- The stylesheet installed by `set_dark_mode`. -/
def dark_mode_style : String :=
  "QMainWindow \x7b background-color: #303030; \x7d\n" ++
  "QTabWidget::pane \x7b background: #202020; \x7d\n" ++
  "QTabBar::tab \x7b background: #505050; color: white; padding: 8px; margin: 1px; \x7d\n" ++
  "QTabBar::tab:selected \x7b background: #404040; color: white; \x7d\n" ++
  "QLineEdit \x7b background-color: #606060; color: white; \x7d\n" ++
  "QToolBar \x7b background-color: #303030; padding: 5px; \x7d"

/-- `Browser.set_light_mode`: install the light stylesheet and set the
mode action's text to the sun glyph. -/
def set_light_mode (s : BrowserState) : BrowserState :=
  { s with styleSheet := light_mode_style, modeGlyph := "🌞" }

/-- `Browser.set_dark_mode`: install the dark stylesheet and set the
mode action's text to the crescent-moon glyph. -/
def set_dark_mode (s : BrowserState) : BrowserState :=
  { s with styleSheet := dark_mode_style, modeGlyph := "🌜" }

/-- `Browser.toggle_mode`: if currently dark, go light and clear the
flag; otherwise go dark and set the flag. -/
def toggle_mode (s : BrowserState) : BrowserState :=
  if s.is_dark_mode then
    { set_light_mode s with is_dark_mode := false }
  else
    { set_dark_mode s with is_dark_mode := true }

/-- `Browser.add_new_tab(qurl)`: build a `QWebEngineView` pointed at
`qurl` (or the default search engine when none is given), append it to
the tab widget under the title "New Tab", and make the returned index
current.  `QTabWidget.addTab` returns the index of the appended tab,
i.e. the old tab count. -/
def add_new_tab (s : BrowserState) (qurl : Option String) : BrowserState :=
  let browser : TabSession :=
    { currentUrl := qurl.getD startAddress, displayTitle := "New Tab" }
  let i := s.tabs.length
  { s with tabs := s.tabs ++ [browser], currentIndex := i }

/-- `Browser.new_tab`: toolbar "New Tab" action; opens a tab at the
default search engine. -/
def new_tab (s : BrowserState) : BrowserState :=
  add_new_tab s (some startAddress)

/-- Overwrite the current URL of the session at position `n`, leaving
every other session alone (`widget.setUrl(...)` on that one view). -/
def setUrlAt : List TabSession → Nat → String → List TabSession
  | [], _, _ => []
  | t :: ts, 0, u => { t with currentUrl := u } :: ts
  | t :: ts, n + 1, u => t :: setUrlAt ts n u

/-- Python's `needle in hay` on strings: does `needle` occur as a
contiguous substring of `hay`? -/
def hasSubstring (needle : List Char) : List Char → Bool
  | [] => needle.isEmpty
  | c :: rest => needle.isPrefixOf (c :: rest) || hasSubstring needle rest

/-- `Browser.load_url`: read the URL bar; if "http" does not occur in
the text, prepend the search-dispatch prefix by raw concatenation; then
`setUrl` the result on the current tab's view. -/
def load_url (s : BrowserState) : BrowserState :=
  let url := s.url_bar
  let url :=
    if ¬ (hasSubstring "http".toList url.toList) then
      "https://start.duckduckgo.com/?q=" ++ url
    else url
  { s with tabs := setUrlAt s.tabs s.currentIndex url }

/-- The home button's handler:
`self.tabs.currentWidget().setUrl(QUrl("https://start.duckduckgo.com"))`. -/
def go_home (s : BrowserState) : BrowserState :=
  { s with tabs := setUrlAt s.tabs s.currentIndex "https://start.duckduckgo.com" }

/-- `Browser.close_tab(index)`: `removeTab(index)` only when more than
one tab is open.  `QTabWidget.removeTab` drops the page at `index`
(no-op when out of range) and keeps the current index in range; the
latter is modelled by clamping. -/
def close_tab (s : BrowserState) (index : Nat) : BrowserState :=
  if 1 < s.tabs.length then
    { s with tabs := s.tabs.eraseIdx index,
             currentIndex := Nat.min s.currentIndex ((s.tabs.eraseIdx index).length - 1) }
  else s

/-- The `urlChanged` handler installed per tab:
`self.url_bar.setText(qurl.toString())`. -/
def url_changed (s : BrowserState) (qurl : String) : BrowserState :=
  { s with url_bar := qurl }

/-- A download request from the engine: the engine's suggested path and
whether this program has told the engine to proceed. -/
structure Download where
  path : String
  accepted : Bool
  deriving Repr, DecidableEq

/-- `Browser.download_requested(download)`: open the save dialog
(pre-filled with `download.path()`); `file_path` is what the dialog
returned (the empty string when cancelled).  If it is non-empty
(truthy), `download.setPath(file_path)` then `download.accept()`;
otherwise nothing happens. -/
def download_requested (d : Download) (file_path : String) : Download :=
  if file_path ≠ "" then { d with path := file_path, accepted := true }
  else d

/-- The window state right after the field initialisers of `__init__`:
no tabs yet, `is_dark_mode = False`, the mode action created with the
sun glyph, an empty URL bar and no stylesheet installed yet. -/
def init0 : BrowserState :=
  { tabs := [], currentIndex := 0, is_dark_mode := false,
    styleSheet := "", modeGlyph := "🌞", url_bar := "" }

/-- The window state at the end of `__init__`: one tab at the default
search engine, then the default light mode applied. -/
def initBrowser : BrowserState :=
  set_light_mode (add_new_tab init0 (some "https://start.duckduckgo.com"))

/-- The explicit tab-collection operations reachable from the UI:
the "New Tab" action (always at the default address) and a tab-close
click. -/
inductive TabOp where
  | addTab (qurl : Option String)
  | closeTab (index : Nat)
  deriving Repr, DecidableEq

/-- Run one tab-collection operation. -/
def applyOp (s : BrowserState) : TabOp → BrowserState
  | TabOp.addTab qurl => add_new_tab s qurl
  | TabOp.closeTab index => close_tab s index

/-- Run a sequence of tab-collection operations. -/
def applyOps (s : BrowserState) (ops : List TabOp) : BrowserState :=
  ops.foldl applyOp s

/-- The URL of the session at the current index, when that index is in
range. -/
def activeUrl? (s : BrowserState) : Option String :=
  s.tabs[s.currentIndex]?.map TabSession.currentUrl

/-- Reading position `n` after `setUrlAt` at `n` gives the old session
with its URL overwritten. -/
theorem getElem?_setUrlAt (l : List TabSession) (n : Nat) (u : String) :
    (setUrlAt l n u)[n]? = l[n]?.map fun t => { t with currentUrl := u } := by
  induction l generalizing n with
  | nil => simp [setUrlAt]
  | cons t ts ih =>
    cases n with
    | zero => simp [setUrlAt]
    | succ m => simpa [setUrlAt] using ih m

/-- `hasSubstring` agrees with the mathematical substring relation. -/
theorem hasSubstring_iff (n h : List Char) :
    hasSubstring n h = true ↔ n <:+: h := by
  induction h with
  | nil =>
    simp [hasSubstring, List.isEmpty_iff, List.infix_nil]
  | cons c rest ih =>
    simp [hasSubstring, List.infix_cons_iff, List.isPrefixOf_iff_prefix, ih]

/-- The tab appended by `add_new_tab`, with `initialUrl` defaulting to
the start address. -/
def newTab (qurl : Option String) : TabSession :=
  { currentUrl := qurl.getD startAddress, displayTitle := "New Tab" }

/-- One tab-collection operation keeps the tab count at least one. -/
theorem applyOp_tabCount_pos (s : BrowserState) (op : TabOp)
    (h : 1 ≤ s.tabs.length) : 1 ≤ (applyOp s op).tabs.length := by
  cases op with
  | addTab qurl =>
    simp [applyOp, add_new_tab]
  | closeTab index =>
    show 1 ≤ (close_tab s index).tabs.length
    unfold close_tab
    split
    · next hlt =>
      have hle := List.le_length_eraseIdx s.tabs index
      show 1 ≤ (s.tabs.eraseIdx index).length
      omega
    · exact h

/-- Any sequence of tab-collection operations keeps the tab count at
least one. -/
theorem applyOps_tabCount_pos (ops : List TabOp) (s : BrowserState)
    (h : 1 ≤ s.tabs.length) : 1 ≤ (applyOps s ops).tabs.length := by
  induction ops generalizing s with
  | nil => exact h
  | cons op rest ih => exact ih _ (applyOp_tabCount_pos s op h)

/-- C1: for every address-bar text submitted to `load_url`, the target
address set on the active session's engine is the text itself when it
contains the substring "http", and otherwise is exactly
"https://start.duckduckgo.com/?q=" ++ text, with no URL-encoding. -/
theorem load_url_target (s : BrowserState) (h : s.currentIndex < s.tabs.length) :
    activeUrl? (load_url s) =
      some (if "http".toList <:+: s.url_bar.toList then s.url_bar
            else "https://start.duckduckgo.com/?q=" ++ s.url_bar) := by
  have hgoal : activeUrl? (load_url s)
      = some (if ¬ hasSubstring "http".toList s.url_bar.toList = true
              then "https://start.duckduckgo.com/?q=" ++ s.url_bar
              else s.url_bar) := by
    simp only [activeUrl?, load_url, getElem?_setUrlAt, List.getElem?_eq_getElem h,
      Option.map_some']
  rw [hgoal]
  by_cases hc : "http".toList <:+: s.url_bar.toList
  · rw [if_neg (fun hn => hn ((hasSubstring_iff _ _).mpr hc)), if_pos hc]
  · rw [if_pos (fun hb => hc ((hasSubstring_iff _ _).mp hb)), if_neg hc]

/-- C1 witness: submitting "example.com" (no "http" substring) from the
initial one-tab state navigates the active tab to the search-dispatch
URL, with no encoding. -/
theorem load_url_target_witness :
    activeUrl? (load_url (url_changed initBrowser "example.com")) =
      some "https://start.duckduckgo.com/?q=example.com" := by
  rw [load_url_target _ (by decide)]
  decide

/-- C2: from the initial one-tab state, the tab count never drops below
one under any sequence of addTab/closeTab operations; moreover
`close_tab` removes a tab (count drops by exactly one) whenever at
least two tabs are open and the index is in range, and is a no-op when
exactly one tab is open. -/
theorem tab_floor_invariant (ops : List TabOp) (i : Nat) :
    1 ≤ (applyOps initBrowser ops).tabs.length
    ∧ (∀ s : BrowserState, 2 ≤ s.tabs.length → i < s.tabs.length →
        (close_tab s i).tabs.length + 1 = s.tabs.length)
    ∧ (∀ s : BrowserState, s.tabs.length = 1 → close_tab s i = s) := by
  refine ⟨applyOps_tabCount_pos ops initBrowser (by decide), ?_, ?_⟩
  · intro s h2 hi
    unfold close_tab
    rw [if_pos (show 1 < s.tabs.length by omega)]
    show (s.tabs.eraseIdx i).length + 1 = s.tabs.length
    rw [List.length_eraseIdx_of_lt hi]
    omega
  · intro s h1
    unfold close_tab
    rw [if_neg (by omega)]

/-- C2 witness: two close requests against the initial single-tab
state leave the count at one. -/
theorem tab_floor_invariant_witness :
    1 ≤ (applyOps initBrowser [TabOp.closeTab 0, TabOp.closeTab 0]).tabs.length
    ∧ (close_tab (applyOps initBrowser [TabOp.addTab none]) 0).tabs.length + 1
        = (applyOps initBrowser [TabOp.addTab none]).tabs.length
    ∧ close_tab initBrowser 0 = initBrowser :=
  ⟨(tab_floor_invariant [TabOp.closeTab 0, TabOp.closeTab 0] 0).1,
   (tab_floor_invariant [] 0).2.1 _ (by decide) (by decide),
   (tab_floor_invariant [] 0).2.2 initBrowser (by decide)⟩

/-- C3: N ≥ 1 consecutive addTab calls on any state each append one new
session (so the count grows by exactly N) and leave the active index at
the most recently added tab, i.e. the last position. -/
theorem addTab_repeat (s : BrowserState) (N : Nat) (h : 1 ≤ N) :
    (applyOps s (List.replicate N (TabOp.addTab none))).tabs
        = s.tabs ++ List.replicate N (newTab none)
    ∧ (applyOps s (List.replicate N (TabOp.addTab none))).currentIndex
        = s.tabs.length + N - 1 := by
  obtain ⟨n, rfl⟩ : ∃ n, N = n + 1 := ⟨N - 1, (Nat.succ_pred_eq_of_pos h).symm⟩
  clear h
  induction n generalizing s with
  | zero =>
    simp [applyOps, applyOp, add_new_tab, newTab]
  | succ m ih =>
    have hstep : applyOps s (List.replicate (m + 1 + 1) (TabOp.addTab none))
        = applyOps (applyOp s (TabOp.addTab none)) (List.replicate (m + 1) (TabOp.addTab none)) := by
      rw [List.replicate_succ]
      rfl
    obtain ⟨ih1, ih2⟩ := ih (applyOp s (TabOp.addTab none))
    constructor
    · rw [hstep, ih1]
      show s.tabs ++ [newTab none] ++ List.replicate (m + 1) (newTab none)
          = s.tabs ++ List.replicate (m + 1 + 1) (newTab none)
      rw [List.append_assoc, List.singleton_append, ← List.replicate_succ]
    · rw [hstep, ih2]
      have hlen : (applyOp s (TabOp.addTab none)).tabs.length = s.tabs.length + 1 := by
        simp [applyOp, add_new_tab]
      omega

/-- C3 witness: three addTab calls on the initial one-tab state give
four tabs with the active index at the last one. -/
theorem addTab_repeat_witness :
    (applyOps initBrowser (List.replicate 3 (TabOp.addTab none))).tabs
        = initBrowser.tabs ++ List.replicate 3 (newTab none)
    ∧ (applyOps initBrowser (List.replicate 3 (TabOp.addTab none))).currentIndex
        = initBrowser.tabs.length + 3 - 1 :=
  addTab_repeat initBrowser 3 (by decide)

/-- C4: when the save chooser returns a non-empty path, the mediator
sets the download's target path to it and accepts; when the chooser is
cancelled (empty result), the download is left untouched — no path is
set and accept is not called. -/
theorem download_requested_spec (d : Download) (file_path : String) :
    (file_path ≠ "" →
      download_requested d file_path = { path := file_path, accepted := true })
    ∧ (file_path = "" → download_requested d file_path = d) := by
  constructor
  · intro hne
    unfold download_requested
    rw [if_pos hne]
  · intro he
    unfold download_requested
    rw [if_neg (by simp [he])]

/-- C4 witness: choosing "/home/user/file.zip" for a download suggested
at "/tmp/file.zip" retargets and accepts it; cancelling leaves it
untouched. -/
theorem download_requested_spec_witness :
    download_requested { path := "/tmp/file.zip", accepted := false } "/home/user/file.zip"
        = { path := "/home/user/file.zip", accepted := true }
    ∧ download_requested { path := "/tmp/file.zip", accepted := false } ""
        = { path := "/tmp/file.zip", accepted := false } :=
  ⟨(download_requested_spec ⟨"/tmp/file.zip", false⟩ "/home/user/file.zip").1 (by decide),
   (download_requested_spec ⟨"/tmp/file.zip", false⟩ "").2 rfl⟩

/-- C5: after a URL-changed event carrying U, the URL bar's displayed
text equals exactly U. -/
theorem url_changed_spec (s : BrowserState) (u : String) :
    (url_changed s u).url_bar = u := rfl

/-- C6: toggle flips the theme flag and sets the glyph for the new
state (sun for light, crescent moon for dark); toggling twice restores
both the flag and (when it started consistent) the glyph; the initial
theme is light with the sun glyph. -/
theorem toggle_mode_spec (s : BrowserState) :
    (toggle_mode s).is_dark_mode = !s.is_dark_mode
    ∧ (toggle_mode s).modeGlyph
        = (if (toggle_mode s).is_dark_mode then "🌜" else "🌞")
    ∧ (toggle_mode (toggle_mode s)).is_dark_mode = s.is_dark_mode
    ∧ (s.modeGlyph = (if s.is_dark_mode then "🌜" else "🌞") →
        (toggle_mode (toggle_mode s)).modeGlyph = s.modeGlyph)
    ∧ initBrowser.is_dark_mode = false
    ∧ initBrowser.modeGlyph = "🌞" := by
  cases hd : s.is_dark_mode <;>
    simp [toggle_mode, set_light_mode, set_dark_mode, hd, initBrowser,
      add_new_tab, init0] <;>
    exact fun hg => hg.symm

/-- C6 witness: from the initial state (light, sun glyph), toggling
twice restores the glyph. -/
theorem toggle_mode_spec_witness :
    (toggle_mode (toggle_mode initBrowser)).modeGlyph = initBrowser.modeGlyph :=
  (toggle_mode_spec initBrowser).2.2.2.1 (by decide)

/-- C7: the home button navigates the active session to exactly
"https://start.duckduckgo.com", whatever its current URL was. -/
theorem go_home_spec (s : BrowserState) (h : s.currentIndex < s.tabs.length) :
    activeUrl? (go_home s) = some "https://start.duckduckgo.com" := by
  simp only [activeUrl?, go_home, getElem?_setUrlAt, List.getElem?_eq_getElem h,
    Option.map_some']

/-- C7 witness: pressing home in the initial state puts the active tab
at the start address. -/
theorem go_home_spec_witness :
    activeUrl? (go_home initBrowser) = some "https://start.duckduckgo.com" :=
  go_home_spec initBrowser (by decide)

/-- C8: every tab created by `add_new_tab` carries the display title
"New Tab", regardless of the initial URL. -/
theorem add_new_tab_title (s : BrowserState) (qurl : Option String) :
    ((add_new_tab s qurl).tabs.getLast?).map TabSession.displayTitle
      = some "New Tab" := by
  simp [add_new_tab, List.getLast?_concat]

/-- C9: toggling the theme leaves the tab collection, the active index
and the URL bar unchanged. -/
theorem toggle_mode_frame (s : BrowserState) :
    (toggle_mode s).tabs = s.tabs
    ∧ (toggle_mode s).currentIndex = s.currentIndex
    ∧ (toggle_mode s).url_bar = s.url_bar := by
  cases hd : s.is_dark_mode <;>
    simp [toggle_mode, set_light_mode, set_dark_mode, hd]

/-- C10: with at least two tabs open and a valid index i, closing tab i
removes exactly the session at position i, keeping the others unchanged
and in their original relative order. -/
theorem close_tab_erase (s : BrowserState) (i : Nat) (h2 : 2 ≤ s.tabs.length)
    (_hi : i < s.tabs.length) :
    (close_tab s i).tabs = s.tabs.take i ++ s.tabs.drop (i + 1) := by
  unfold close_tab
  rw [if_pos (show 1 < s.tabs.length by omega)]
  show s.tabs.eraseIdx i = s.tabs.take i ++ s.tabs.drop (i + 1)
  exact List.eraseIdx_eq_take_drop_succ s.tabs i

/-- C10 witness: in a two-tab state, closing tab 0 keeps exactly the
other tab. -/
theorem close_tab_erase_witness :
    (close_tab (applyOps initBrowser [TabOp.addTab none]) 0).tabs
      = (applyOps initBrowser [TabOp.addTab none]).tabs.take 0
        ++ (applyOps initBrowser [TabOp.addTab none]).tabs.drop 1 :=
  close_tab_erase (applyOps initBrowser [TabOp.addTab none]) 0 (by decide) (by decide)

end DuckDuckGo
